import Mathlib

/-!
Shallow embedding of the core of the cvnn repository:
`cvnn/cvnn_v1_compat.py` (the `Cvnn` class: graph construction and the
training loop) and `src/data_processing.py` (train/test splitting and
dataset persistence).

Conventions of the embedding:
* pure functions are translated directly from the Python source;
* `sys.exit(msg)` (fatal process termination) is modelled as `Except.error msg`;
* Python `None` results are modelled as `Option.none`;
* file I/O is modelled by explicit stores (maps from a path to contents);
* `cvnn/utils.py` is not among the given sources; the helpers it provides
  (`randomize`, `get_next_batch`) are modelled from the spec and each such
  definition is marked `Modelled from the spec` in its doc comment.
-/

namespace CvnnModel

/-- Keys of the `act_dispatcher` table of `cvnn_v1_compat.py` (lines 33-46).
The mapped activation functions live in `activation_functions.py`, outside the
modelled core; only the names matter for dispatch. -/
def act_dispatcher : List String :=
  ["linear", "cart_sigmoid", "cart_elu", "cart_exponential", "cart_hard_sigmoid",
   "cart_relu", "cart_selu", "cart_softplus", "cart_softsign", "cart_tanh",
   "cart_softmax", "cart_softmax_real"]

/-- Keys of the `loss_dispatcher` table of `cvnn_v1_compat.py` (lines 28-31). -/
def loss_dispatcher : List String :=
  ["mean_square", "categorical_crossentropy"]

/-- Symbolic tensors of the constructed graph: the input placeholder `X`, the
label placeholder `Y`, a dense layer `add(matmul(input, w_i), b_i)` (real or
complex according to the input dtype), an applied one-argument function, an
applied two-argument loss function, `reduce_mean`, the `abs` coercion of
line 315, and the `identity` wrapper of line 313. -/
inductive Tensor where
  | X : Tensor
  | Y : Tensor
  | dense (layer : Nat) (input : Tensor) : Tensor
  | app (fn : String) (t : Tensor) : Tensor
  | lossApp (fn : String) (labels out : Tensor) : Tensor
  | reduceMean (t : Tensor) : Tensor
  | abs (t : Tensor) : Tensor
  | ident (t : Tensor) : Tensor
deriving DecidableEq

/-- An activation or loss argument as `_apply_activation` and `_apply_loss`
inspect it: a Python callable (identified by its declaring module and its
name), a string, or any other value (for example an integer). -/
inductive ActArg where
  | callable (module fn : String) : ActArg
  | str (name : String) : ActArg
  | other : ActArg
deriving DecidableEq

/-- Result of `_apply_activation`: an optional printed warning together with
the returned value, where `Option.none` stands for Python `None` (the function
body can fall through without reaching a `return` statement). -/
structure ActResult where
  warning : Option String
  result : Option Tensor
deriving DecidableEq

/-- Embedding of `Cvnn._apply_activation` (cvnn_v1_compat.py, lines 590-611).
A callable is accepted only when its declaring module is one of the two
allowed ones, otherwise `sys.exit`; a string name found in `act_dispatcher`
dispatches; an unknown string name prints a warning and returns the input
tensor unchanged; any other argument falls through the `if`/`elif` chain and
returns `None`, with no error raised. -/
def apply_activation (act_fun : ActArg) (out : Tensor) : Except String ActResult :=
  match act_fun with
  | ActArg.callable module fn =>
      if module = "activation_functions" ∨ module = "tensorflow.python.keras.activations" then
        Except.ok ⟨none, some (Tensor.app fn out)⟩
      else
        Except.error "Cvnn::_apply_activation Unknown loss function"
  | ActArg.str name =>
      if name ∈ act_dispatcher then
        Except.ok ⟨none, some (Tensor.app name out)⟩
      else
        Except.ok ⟨some ("WARNING: Cvnn::_apply_function: " ++ name ++ " is not callable, ignoring it"),
                   some out⟩
  | ActArg.other => Except.ok ⟨none, none⟩

/-- Embedding of `Cvnn._apply_loss` (cvnn_v1_compat.py, lines 613-627).
A callable from a module other than the two allowed ones exits fatally; a
string name is looked up in `loss_dispatcher`, exiting fatally when absent; a
non-callable non-string exits fatally; on success the result is
`reduce_mean(loss_func(y, y_out))`. -/
def apply_loss (loss_func : ActArg) (y y_out : Tensor) : Except String Tensor :=
  match loss_func with
  | ActArg.callable module fn =>
      if module ≠ "losses" ∧ module ≠ "tensorflow.python.keras.losses" then
        Except.error "Cvnn::_apply_loss: Unknown loss function"
      else
        Except.ok (Tensor.reduceMean (Tensor.lossApp fn y y_out))
  | ActArg.str name =>
      if name ∈ loss_dispatcher then
        Except.ok (Tensor.reduceMean (Tensor.lossApp name y y_out))
      else
        Except.error "Cvnn::_apply_loss: Invalid loss function name"
  | ActArg.other => Except.error "Cvnn::_apply_loss: Invalid loss function"

/-- A file system: a map from a file path to the contents stored there, with
`none` for a path where no file exists. -/
def FileSystem : Type := String → Option String

/-- The metadata path `./log/<name>/run-<now>/metadata.txt` assembled by the
`Cvnn` constructor (cvnn_v1_compat.py, lines 93-95 and 140).  Two runs with
the same name and the same wall-clock second resolve to the same path. -/
def metadata_path (name now : String) : String :=
  "./log/" ++ name ++ "/run-" ++ now ++ "/metadata.txt"

/-- Embedding of `Cvnn._save_object_summary` (cvnn_v1_compat.py, lines
132-152).  The metadata file is opened in mode `x`, which fails whenever the
file already exists; in that case the function exits fatally (first component
carries the fatal message) and the file system is left untouched; otherwise
the metadata text is written to the fresh file. -/
def save_object_summary (fs : FileSystem) (path content : String) :
    Option String × FileSystem :=
  match fs path with
  | some _ => (some "Fatal: Same file already exists. Aborting to not override results", fs)
  | none => (none, fun p => if p = path then some content else fs p)

/-- A dataset store for `save_dataset` / `load_dataset`
(src/data_processing.py): a map from an array name to the saved quadruple
(x_train, y_train, x_test, y_test); `np.savez` writes the file
`../data/<name>.npz` and `np.load` reads it back. -/
def DataStore (α β γ δ : Type) : Type := String → Option (α × β × γ × δ)

/-- Embedding of `save_dataset` (src/data_processing.py, lines 153-165):
stores the four arrays in a single `.npz` file named after `array_name`,
creating the data directory when needed (the directory is implicit in the
store model). -/
def save_dataset (store : DataStore α β γ δ) (array_name : String)
    (x_train : α) (y_train : β) (x_test : γ) (y_test : δ) : DataStore α β γ δ :=
  fun n => if n = array_name then some (x_train, y_train, x_test, y_test) else store n

/-- Embedding of `load_dataset` (src/data_processing.py, lines 168-180):
returns the four arrays saved under `array_name`, exiting fatally when the
file does not exist. -/
def load_dataset (store : DataStore α β γ δ) (array_name : String) :
    Except String (α × β × γ × δ) :=
  match store array_name with
  | some d => Except.ok d
  | none => Except.error "Cvnn::load_dataset: The file could not be found"

/-- C5: saving a dataset and loading it back under the same array name
returns the four arrays unchanged (round-trip law). -/
theorem save_load_dataset_roundtrip (store : DataStore α β γ δ) (array_name : String)
    (x_train : α) (y_train : β) (x_test : γ) (y_test : δ) :
    load_dataset (save_dataset store array_name x_train y_train x_test y_test) array_name =
      Except.ok (x_train, y_train, x_test, y_test) := by
  simp [load_dataset, save_dataset]

/-- C8: unknown names are handled asymmetrically — an activation name absent
from `act_dispatcher` produces a warning and returns the input tensor
unchanged (identity fallback), while a loss name absent from
`loss_dispatcher` exits fatally. -/
theorem unknown_name_asymmetry (t y y_out : Tensor) (s1 s2 : String)
    (h1 : s1 ∉ act_dispatcher) (h2 : s2 ∉ loss_dispatcher) :
    (∃ w, apply_activation (ActArg.str s1) t = Except.ok ⟨some w, some t⟩) ∧
    (∃ msg, apply_loss (ActArg.str s2) y y_out = Except.error msg) := by
  constructor
  · exact ⟨"WARNING: Cvnn::_apply_function: " ++ s1 ++ " is not callable, ignoring it",
      by simp [apply_activation, h1]⟩
  · exact ⟨"Cvnn::_apply_loss: Invalid loss function name", by simp [apply_loss, h2]⟩

/-- C8 witness at the unknown name "nope". -/
theorem unknown_name_asymmetry_witness :
    ("nope" ∉ act_dispatcher) ∧ ("nope" ∉ loss_dispatcher) ∧
    ((∃ w, apply_activation (ActArg.str "nope") Tensor.X = Except.ok ⟨some w, some Tensor.X⟩) ∧
     (∃ msg, apply_loss (ActArg.str "nope") Tensor.Y Tensor.X = Except.error msg)) :=
  ⟨by decide, by decide,
   unknown_name_asymmetry Tensor.X Tensor.Y Tensor.X "nope" "nope" (by decide) (by decide)⟩

/-- C10: an activation argument that is neither a callable nor a string
raises no error and returns `None` (the Python function falls through),
so a malformed shape-spec activation entry silently propagates `None`. -/
theorem apply_activation_other_returns_none (t : Tensor) :
    apply_activation ActArg.other t = Except.ok ⟨none, none⟩ := rfl

/-- C9: when the metadata path is fresh, the first creation writes the file;
re-creating the metadata file at the same path (same name, same wall-clock
second) is fatal and leaves the first run's metadata intact. -/
theorem metadata_never_overwritten (fs : FileSystem) (name now c1 c2 : String)
    (h : fs (metadata_path name now) = none) :
    (save_object_summary fs (metadata_path name now) c1).1 = none ∧
    (save_object_summary fs (metadata_path name now) c1).2 (metadata_path name now) = some c1 ∧
    (∃ msg, (save_object_summary
        ((save_object_summary fs (metadata_path name now) c1).2)
        (metadata_path name now) c2).1 = some msg) ∧
    (save_object_summary
        ((save_object_summary fs (metadata_path name now) c1).2)
        (metadata_path name now) c2).2 (metadata_path name now) = some c1 := by
  simp [save_object_summary, h]

/-- C9 witness: an empty file system, name "net", timestamp "20200101000000". -/
theorem metadata_never_overwritten_witness :
    ((fun _ => none : FileSystem) (metadata_path "net" "20200101000000") = none) ∧
    ((save_object_summary (fun _ => none) (metadata_path "net" "20200101000000") "meta1").1 = none ∧
     (save_object_summary (fun _ => none) (metadata_path "net" "20200101000000") "meta1").2
        (metadata_path "net" "20200101000000") = some "meta1" ∧
     (∃ msg, (save_object_summary
        ((save_object_summary (fun _ => none) (metadata_path "net" "20200101000000") "meta1").2)
        (metadata_path "net" "20200101000000") "meta2").1 = some msg) ∧
     (save_object_summary
        ((save_object_summary (fun _ => none) (metadata_path "net" "20200101000000") "meta1").2)
        (metadata_path "net" "20200101000000") "meta2").2
        (metadata_path "net" "20200101000000") = some "meta1") :=
  ⟨rfl, metadata_never_overwritten (fun _ => none) "net" "20200101000000" "meta1" "meta2" rfl⟩

/-- Number of training iterations per epoch: `int(len(y_train) / batch_size)`
(cvnn_v1_compat.py, line 212). -/
def num_tr_iter (n batch_size : Nat) : Nat := n / batch_size

/-- The test of line 223 deciding whether `run_checkpoint` is called:
`(epoch * batch_size + iteration) % display_freq == 0`.  Note that it
multiplies the epoch by `batch_size`, not by the number of iterations per
epoch (which is what `_save_to_tensorboard` uses for its step counter). -/
def checkpoint_cond (epoch iteration batch_size display_freq : Nat) : Bool :=
  (epoch * batch_size + iteration) % display_freq == 0

/-- The (epoch, iteration) pairs at which `train` (lines 213-225) calls
`run_checkpoint`, in program order: all epochs below `epochs`, all iterations
below `num_tr_iter`, filtered by `checkpoint_cond`. -/
def train_checkpoints (epochs n batch_size display_freq : Nat) : List (Nat × Nat) :=
  (List.range epochs).flatMap (fun epoch =>
    (List.range (num_tr_iter n batch_size)).filterMap (fun iteration =>
      if checkpoint_cond epoch iteration batch_size display_freq then
        some (epoch, iteration)
      else none))

/-- Observable outcome of `Cvnn.train` (lines 180-232): either the batch-size
check of line 197 exits fatally as the very first statement of the function
(so nothing else — weight initialization, session runs, checkpoints — has
happened), or training proceeds and emits its checkpoint schedule. -/
inductive TrainOutcome where
  | fatal (msg : String) : TrainOutcome
  | ran (checkpoints : List (Nat × Nat)) : TrainOutcome
deriving DecidableEq

/-- Embedding of the control skeleton of `Cvnn.train` (lines 197-225) for a
training set of `n` examples: the guard `np.shape(x_train)[0] < batch_size`
exits fatally before any graph evaluation; otherwise every epoch runs
`num_tr_iter` iterations and checkpoints fire per `checkpoint_cond`. -/
def train (n batch_size epochs display_freq : Nat) : TrainOutcome :=
  if n < batch_size then
    TrainOutcome.fatal "Cvnn::train(): Batch size was bigger than total amount of examples"
  else
    TrainOutcome.ran (train_checkpoints epochs n batch_size display_freq)

/-- C1 counterexample: with 6 training examples and batch size 2 there are 3
iterations per epoch; with display_freq 3 the claim predicts a checkpoint at
epoch 1, iteration 0 (since 1*3+0 is a multiple of 3), but the code tests
1*2+0 and emits none there. -/
theorem train_checkpoints_claim_false :
    ¬ ((1, 0) ∈ train_checkpoints 2 6 2 3 ↔ (1 * num_tr_iter 6 2 + 0) % 3 = 0) := by
  decide

/-- C1 (amended): a checkpoint and a progress log line are emitted at epoch
`e`, iteration `i` exactly when `e * batch_size + i` is a multiple of
`display_freq` (as the docstring of `train` states), and at no other
iteration. -/
theorem train_checkpoints_spec (epochs n batch_size display_freq epoch iteration : Nat)
    (hdf : 0 < display_freq) :
    (epoch, iteration) ∈ train_checkpoints epochs n batch_size display_freq ↔
      epoch < epochs ∧ iteration < num_tr_iter n batch_size ∧
        (epoch * batch_size + iteration) % display_freq = 0 := by
  constructor
  · intro hmem
    obtain ⟨e, he, hf⟩ := List.mem_flatMap.mp hmem
    obtain ⟨i, hi, hif⟩ := List.mem_filterMap.mp hf
    by_cases hc : checkpoint_cond e i batch_size display_freq
    · rw [if_pos hc] at hif
      obtain ⟨rfl, rfl⟩ : e = epoch ∧ i = iteration := by
        constructor <;> · injection hif with h2; injection h2
      refine ⟨List.mem_range.mp he, List.mem_range.mp hi, ?_⟩
      simpa [checkpoint_cond] using hc
    · rw [if_neg hc] at hif
      exact absurd hif (by simp)
  · rintro ⟨h1, h2, h3⟩
    refine List.mem_flatMap.mpr ⟨epoch, List.mem_range.mpr h1, ?_⟩
    refine List.mem_filterMap.mpr ⟨iteration, List.mem_range.mpr h2, ?_⟩
    rw [if_pos]
    simp [checkpoint_cond, h3]

/-- C1 witness: epochs 2, 6 examples, batch size 2, display_freq 3; the code
emits checkpoints exactly at (0,0) and (1,1). -/
theorem train_checkpoints_spec_witness :
    0 < 3 ∧ ((1, 1) ∈ train_checkpoints 2 6 2 3 ↔
      1 < 2 ∧ 1 < num_tr_iter 6 2 ∧ (1 * 2 + 1) % 3 = 0) :=
  ⟨by decide, train_checkpoints_spec 2 6 2 3 1 1 (by decide)⟩

/-- C7: `train` fails fatally — before any graph evaluation, weight
initialization or checkpoint — exactly when the batch size exceeds the
training-set size, and proceeds when the batch size equals it. -/
theorem train_batch_size_guard (n batch_size epochs display_freq : Nat) :
    ((∃ msg, train n batch_size epochs display_freq = TrainOutcome.fatal msg) ↔
        n < batch_size) ∧
    (batch_size = n →
      train n batch_size epochs display_freq =
        TrainOutcome.ran (train_checkpoints epochs n batch_size display_freq)) := by
  constructor
  · constructor
    · rintro ⟨msg, hm⟩
      by_contra hlt
      simp [train, hlt] at hm
    · intro hlt
      exact ⟨"Cvnn::train(): Batch size was bigger than total amount of examples",
        by simp [train, hlt]⟩
  · intro hbn
    subst hbn
    simp [train]

/-- C7 witness: 3 examples, batch size 3 — training proceeds. -/
theorem train_batch_size_guard_witness :
    train 3 3 1 1 = TrainOutcome.ran (train_checkpoints 1 3 3 1) :=
  (train_batch_size_guard 3 3 1 1).2 rfl

/-- Modelled from the spec: `get_next_batch` lives in `cvnn/utils.py`, which
is not among the given sources; per the spec's description of batch slicing it
returns the examples whose indices lie in `[start, stop)`. -/
def get_next_batch (x : List α) (start stop : Nat) : List α :=
  (x.drop start).take (stop - start)

/-- The batches processed in one epoch of `train` (lines 212-220): iteration
`i` takes the slice `[i * batch_size, (i+1) * batch_size)` of the (shuffled)
epoch data. -/
def epoch_batches (x : List α) (batch_size : Nat) : List (List α) :=
  (List.range (num_tr_iter x.length batch_size)).map (fun i =>
    get_next_batch x (i * batch_size) ((i + 1) * batch_size))

/-- Concatenating the first `k` consecutive `b`-sized chunks of a list gives
its first `k * b` elements. -/
theorem flatten_chunks (b : Nat) :
    ∀ (k : Nat) (x : List α),
      ((List.range k).map (fun i => (x.drop (i * b)).take b)).flatten = x.take (k * b) := by
  intro k
  induction k with
  | zero => intro x; simp
  | succ k ih =>
      intro x
      rw [List.range_succ_eq_map, List.map_cons, List.map_map, List.flatten_cons]
      have hcomp :
          ((fun i => (x.drop (i * b)).take b) ∘ Nat.succ) =
            (fun i => ((x.drop b).drop (i * b)).take b) := by
        funext i
        simp [Function.comp, List.drop_drop, Nat.succ_mul, Nat.add_comm]
      rw [hcomp, ih (x.drop b)]
      rw [Nat.succ_mul, Nat.add_comm (k * b) b, List.take_add]
      simp

/-- C3: with batch size `b` (positive, at most the number of examples), an
epoch runs exactly `⌊n / b⌋` iterations; iteration `i` processes precisely
the slice with indices `[i*b, (i+1)*b)`; together the iterations process
exactly the first `⌊n / b⌋ * b` examples, and the trailing `n % b` examples
are never processed. -/
theorem epoch_batches_spec (x : List α) (b : Nat) (hb : 0 < b) (hbn : b ≤ x.length) :
    (epoch_batches x b).length = x.length / b ∧
    (∀ i, i < x.length / b →
      (epoch_batches x b).getD i [] = (x.take ((i + 1) * b)).drop (i * b)) ∧
    (epoch_batches x b).flatten = x.take (x.length / b * b) ∧
    (x.drop (x.length / b * b)).length = x.length % b := by
  refine ⟨by simp [epoch_batches, num_tr_iter], ?_, ?_, ?_⟩
  · intro i hi
    have hi2 : i < num_tr_iter x.length b := hi
    have h1 : (epoch_batches x b).getD i [] =
        get_next_batch x (i * b) ((i + 1) * b) := by
      unfold epoch_batches
      rw [List.getD_eq_getElem?_getD, List.getElem?_map, List.getElem?_range hi2]
      rfl
    rw [h1]
    simp only [get_next_batch]
    rw [List.drop_take]
  · have hrw : epoch_batches x b =
        (List.range (x.length / b)).map (fun i => (x.drop (i * b)).take b) := by
      unfold epoch_batches get_next_batch num_tr_iter
      apply List.map_congr_left
      intro i _
      congr 1
      rw [Nat.add_mul, Nat.one_mul]
      omega
    rw [hrw, flatten_chunks]
  · have h1 : x.length / b * b ≤ x.length := Nat.div_mul_le_self _ _
    have h2 : x.length % b + x.length / b * b = x.length := by
      rw [Nat.mul_comm]
      exact Nat.mod_add_div _ _
    simp [List.length_drop]
    omega

/-- C3 witness: 5 examples, batch size 2 — two full batches, one dropped
example. -/
theorem epoch_batches_spec_witness :
    0 < 2 ∧ 2 ≤ ([10, 20, 30, 40, 50] : List Nat).length ∧
    ((epoch_batches ([10, 20, 30, 40, 50] : List Nat) 2).length = 5 / 2 ∧
     (∀ i, i < 5 / 2 →
       (epoch_batches ([10, 20, 30, 40, 50] : List Nat) 2).getD i [] =
         (([10, 20, 30, 40, 50] : List Nat).take ((i + 1) * 2)).drop (i * 2)) ∧
     (epoch_batches ([10, 20, 30, 40, 50] : List Nat) 2).flatten =
       ([10, 20, 30, 40, 50] : List Nat).take (5 / 2 * 2) ∧
     (([10, 20, 30, 40, 50] : List Nat).drop (5 / 2 * 2)).length = 5 % 2) :=
  ⟨by decide, by decide, epoch_batches_spec [10, 20, 30, 40, 50] 2 (by decide) (by decide)⟩

/-- The two dtypes the graph builder supports; `np.float32` selects real
layers, `np.complex64` complex layers (lines 305-308).  Any other dtype exits
fatally at line 310 and is outside this model. -/
inductive Dtype where
  | float32 : Dtype
  | complex64 : Dtype
deriving DecidableEq

/-- Whether an activation argument is a plain string. -/
def isStrAct : ActArg → Bool
  | ActArg.str _ => true
  | _ => false

/-- Threads an `_apply_activation` result through the layer builder: a fatal
exit propagates, and a Python `None` result would crash the next tensor
operation with a `TypeError`, modelled as a distinct error. -/
def act_value (r : Except String ActResult) : Except String Tensor :=
  match r with
  | Except.error msg => Except.error msg
  | Except.ok res =>
      match res.result with
      | some t => Except.ok t
      | none => Except.error "TypeError: unsupported operand"

/-- The layer loop of `_create_graph_from_shape` (lines 304-312): for each
remaining shape entry, build dense layer number `i` (real or complex according
to the input dtype; both variants collect a weight variable `weights<i>` and a
bias variable `bias<i>`, lines 270-272 and 282-286) and apply the entry's
activation function to its output. -/
def apply_layers : List ActArg → Nat → Tensor → Except String (Tensor × List String)
  | [], _, out => Except.ok (out, [])
  | a :: rest, i, out =>
      match act_value (apply_activation a (Tensor.dense i out)) with
      | Except.error msg => Except.error msg
      | Except.ok out2 =>
          match apply_layers rest (i + 1) out2 with
          | Except.error msg => Except.error msg
          | Except.ok (yOut, vars) =>
              Except.ok (yOut, ("weights" ++ toString i) :: ("bias" ++ toString i) :: vars)

/-- Embedding of `Cvnn._create_graph_from_shape` (lines 294-317): exits
fatally when the shape has fewer than two entries; otherwise applies the input
layer's activation to the placeholder `X`, builds one dense layer per
remaining entry, wraps the output in `identity`, and coerces via `abs` when
the declared output dtype disagrees with the dtype propagated from the input
(line 314; dtype propagation through activations is simplified to the input
dtype, which is exact for activations that preserve the domain). -/
def create_graph_from_shape (shape : List (Nat × ActArg))
    (input_dtype output_dtype : Dtype) : Except String (Tensor × List String) :=
  if shape.length < 2 then
    Except.error "Cvnn::_create_graph_from_shape: shape should be at least of lenth 2"
  else
    match act_value (apply_activation (shape.headD (0, ActArg.other)).2 Tensor.X) with
    | Except.error msg => Except.error msg
    | Except.ok out0 =>
        match apply_layers (shape.tail.map Prod.snd) 1 out0 with
        | Except.error msg => Except.error msg
        | Except.ok (yOut, vars) =>
            Except.ok
              (if output_dtype ≠ input_dtype ∧ input_dtype = Dtype.complex64 then
                Tensor.abs (Tensor.ident yOut)
              else Tensor.ident yOut, vars)

/-- Embedding of `Cvnn.create_mlp_graph` (lines 320-379): exits fatally when
the output dtype is complex while the input dtype is real (line 335); returns
with only a warning (`none`, no graph built) when the graph was already
restored from a meta file (lines 337-339); otherwise builds the forward graph
and resolves the loss, returning the output tensor and the collected
variables. -/
def create_mlp_graph (restored_meta : Bool) (loss_func : ActArg)
    (shape : List (Nat × ActArg)) (input_dtype output_dtype : Dtype) :
    Except String (Option (Tensor × List String)) :=
  if output_dtype = Dtype.complex64 ∧ input_dtype = Dtype.float32 then
    Except.error "Cvnn::create_mlp_graph: if input dtype is real output cannot be complex"
  else if restored_meta then
    Except.ok none
  else
    match create_graph_from_shape shape input_dtype output_dtype with
    | Except.error msg => Except.error msg
    | Except.ok (y_out, vars) =>
        match apply_loss loss_func Tensor.Y y_out with
        | Except.error msg => Except.error msg
        | Except.ok _ => Except.ok (some (y_out, vars))

/-- Whether a result is a fatal process termination. -/
def isFatal : Except String α → Bool
  | Except.error _ => true
  | Except.ok _ => false

/-- The C2 failure condition in the spec's own words, for comparison with the
code: "the output domain is real-valued while the input domain is
complex-valued". -/
def claimed_domain_mismatch (input_dtype output_dtype : Dtype) : Bool :=
  output_dtype == Dtype.float32 && input_dtype == Dtype.complex64

/-- C2 counterexample: with complex input and real output — exactly the
spec's claimed mismatch — `create_mlp_graph` does not terminate fatally (it is
the standard configuration of the repository's own main block); the code only
exits on complex output with real input. -/
theorem create_mlp_graph_claim_false :
    ¬ (isFatal (create_mlp_graph false (ActArg.str "mean_square")
          [(4, ActArg.str "cart_sigmoid"), (2, ActArg.str "cart_softmax_real")]
          Dtype.complex64 Dtype.float32) =
        claimed_domain_mismatch Dtype.complex64 Dtype.float32) := by
  decide

/-- A string-valued activation argument always yields a warning-or-not plus a
tensor (never `None`, never a fatal exit). -/
theorem apply_activation_str_some (s : String) (t : Tensor) :
    ∃ w t2, apply_activation (ActArg.str s) t = Except.ok ⟨w, some t2⟩ := by
  by_cases hs : s ∈ act_dispatcher
  · exact ⟨none, Tensor.app s t, by simp [apply_activation, hs]⟩
  · exact ⟨some ("WARNING: Cvnn::_apply_function: " ++ s ++ " is not callable, ignoring it"), t,
      by simp [apply_activation, hs]⟩

/-- Helper: a `true` result of `isStrAct` exposes the underlying string. -/
theorem isStrAct_eq {a : ActArg} (h : isStrAct a = true) : ∃ s, a = ActArg.str s := by
  cases a with
  | str s => exact ⟨s, rfl⟩
  | callable m f => simp [isStrAct] at h
  | other => simp [isStrAct] at h

/-- A successful run of the layer loop collects exactly one weight and one
bias variable per layer. -/
theorem apply_layers_vars_length :
    ∀ (acts : List ActArg) (i : Nat) (out t : Tensor) (vars : List String),
      apply_layers acts i out = Except.ok (t, vars) → vars.length = 2 * acts.length := by
  intro acts
  induction acts with
  | nil =>
      intro i out t vars h
      simp [apply_layers] at h
      simp [← h.2]
  | cons a rest ih =>
      intro i out t vars h
      simp only [apply_layers] at h
      cases h1 : act_value (apply_activation a (Tensor.dense i out)) with
      | error msg => simp [h1] at h
      | ok out2 =>
          simp only [h1] at h
          cases h2 : apply_layers rest (i + 1) out2 with
          | error msg => simp [h2] at h
          | ok pr =>
              obtain ⟨yOut, vars2⟩ := pr
              simp only [h2] at h
              simp at h
              have hlen := ih (i + 1) out2 yOut vars2 h2
              rw [← h.2]
              simp [hlen]
              omega

/-- The layer loop never exits when every activation entry is a string
(unknown names only warn). -/
theorem apply_layers_str_ok :
    ∀ (acts : List ActArg), (∀ a ∈ acts, isStrAct a = true) →
      ∀ (i : Nat) (out : Tensor),
        ∃ t vars, apply_layers acts i out = Except.ok (t, vars) := by
  intro acts
  induction acts with
  | nil => intro _ i out; exact ⟨out, [], rfl⟩
  | cons a rest ih =>
      intro hstr i out
      obtain ⟨s, rfl⟩ := isStrAct_eq (hstr a (List.mem_cons_self a rest))
      obtain ⟨w, t2, hact⟩ := apply_activation_str_some s (Tensor.dense i out)
      obtain ⟨t3, vars, hl⟩ := ih (fun b hb => hstr b (List.mem_cons_of_mem _ hb)) (i + 1) t2
      refine ⟨t3, ("weights" ++ toString i) :: ("bias" ++ toString i) :: vars, ?_⟩
      simp [apply_layers, hact, act_value, hl]

/-- C2 (amended): for a non-restored instance, a loss name from the dispatch
table, and a shape of length at least 2 whose activation entries are strings,
`create_mlp_graph` terminates fatally (before building any graph) exactly
when the output dtype is complex-valued while the input dtype is real-valued
— the reverse of the direction the spec states. -/
theorem create_mlp_graph_fatal_iff (loss_name : String) (shape : List (Nat × ActArg))
    (input_dtype output_dtype : Dtype)
    (hloss : loss_name ∈ loss_dispatcher)
    (hlen : 2 ≤ shape.length)
    (hacts : ∀ p ∈ shape, isStrAct p.2 = true) :
    isFatal (create_mlp_graph false (ActArg.str loss_name) shape input_dtype output_dtype) = true ↔
      (output_dtype = Dtype.complex64 ∧ input_dtype = Dtype.float32) := by
  by_cases hmis : output_dtype = Dtype.complex64 ∧ input_dtype = Dtype.float32
  · simp [create_mlp_graph, hmis, isFatal]
  · obtain ⟨p, rest, rfl⟩ : ∃ p rest, shape = p :: rest := by
      cases shape with
      | nil => simp at hlen
      | cons p rest => exact ⟨p, rest, rfl⟩
    obtain ⟨s, hs⟩ := isStrAct_eq (hacts p (List.mem_cons_self p rest))
    obtain ⟨w, t2, hact⟩ := apply_activation_str_some s Tensor.X
    have hstr : ∀ a ∈ rest.map Prod.snd, isStrAct a = true := by
      intro a ha
      obtain ⟨q, hq, rfl⟩ := List.mem_map.mp ha
      exact hacts q (List.mem_cons_of_mem p hq)
    obtain ⟨t3, vars, hlayers⟩ := apply_layers_str_ok (rest.map Prod.snd) hstr 1 t2
    have hlen3 : ¬ (rest.length + 1 < 2) := by
      simp only [List.length_cons] at hlen
      omega
    simp [create_mlp_graph, hmis, create_graph_from_shape, hlen3, hs, hact, act_value,
      hlayers, apply_loss, hloss, isFatal]

/-- C2 witness: the repository's own configuration — complex input, real
output, known loss, string activations — builds without a fatal exit. -/
theorem create_mlp_graph_fatal_iff_witness :
    ("mean_square" ∈ loss_dispatcher) ∧
    2 ≤ ([(4, ActArg.str "ignored"), (2, ActArg.str "cart_softmax_real")] :
          List (Nat × ActArg)).length ∧
    (∀ p ∈ ([(4, ActArg.str "ignored"), (2, ActArg.str "cart_softmax_real")] :
          List (Nat × ActArg)), isStrAct p.2 = true) ∧
    (isFatal (create_mlp_graph false (ActArg.str "mean_square")
        [(4, ActArg.str "ignored"), (2, ActArg.str "cart_softmax_real")]
        Dtype.complex64 Dtype.float32) = true ↔
      (Dtype.float32 = Dtype.complex64 ∧ Dtype.complex64 = Dtype.float32)) :=
  ⟨by decide, by decide, by decide,
   create_mlp_graph_fatal_iff "mean_square"
     [(4, ActArg.str "ignored"), (2, ActArg.str "cart_softmax_real")]
     Dtype.complex64 Dtype.float32 (by decide) (by decide) (by decide)⟩

/-- Embedding of the update-rule construction and execution (lines 355-362
and 225): for each variable, in order, one training operator
`assign(var, var - learning_rate * gradients[i])` is built, and running the
list performs those plain gradient-descent assignments sequentially on the
parameter store. -/
def run_training_ops (lr : ℚ) (vs : List String) (params grads : List ℚ) : List ℚ :=
  (List.range vs.length).foldl
    (fun ps i => ps.set i (ps.getD i 0 - lr * grads.getD i 0)) params

/-- Folding assignment operators never changes the number of parameters. -/
theorem foldl_set_length (lr : ℚ) (grads : List ℚ) :
    ∀ (l : List Nat) (params : List ℚ),
      (l.foldl (fun ps i => ps.set i (ps.getD i 0 - lr * grads.getD i 0)) params).length
        = params.length := by
  intro l
  induction l with
  | nil => intro params; rfl
  | cons a t ih => intro params; rw [List.foldl_cons, ih, List.length_set]

/-- Running the first `n` assignment operators updates exactly the first `n`
parameters, each by one gradient-descent step. -/
theorem foldl_set_getD (lr : ℚ) (grads : List ℚ) :
    ∀ (n : Nat) (params : List ℚ), n ≤ params.length → ∀ j,
      ((List.range n).foldl
          (fun ps i => ps.set i (ps.getD i 0 - lr * grads.getD i 0)) params).getD j 0 =
        if j < n then params.getD j 0 - lr * grads.getD j 0 else params.getD j 0 := by
  intro n
  induction n with
  | zero => intro params _ j; simp
  | succ n ih =>
      intro params hn j
      rw [List.range_succ, List.foldl_append, List.foldl_cons, List.foldl_nil]
      have hq := ih params (by omega)
      have hlen : ((List.range n).foldl
          (fun ps i => ps.set i (ps.getD i 0 - lr * grads.getD i 0)) params).length
            = params.length := foldl_set_length lr grads _ params
      by_cases hj : j = n
      · subst hj
        rw [List.getD_eq_getElem?_getD, List.getElem?_set_self (by omega)]
        have : ((List.range j).foldl
            (fun ps i => ps.set i (ps.getD i 0 - lr * grads.getD i 0)) params).getD j 0 =
              params.getD j 0 := by
          rw [hq j]
          simp
        simp only [Option.getD_some, this]
        rw [if_pos (by omega)]
      · rw [List.getD_eq_getElem?_getD, List.getElem?_set_ne (fun he => hj he.symm)]
        rw [← List.getD_eq_getElem?_getD, hq j]
        by_cases hjn : j < n
        · rw [if_pos hjn, if_pos (by omega)]
        · rw [if_neg hjn, if_neg (by omega)]

/-- A successfully built graph from a shape collects one weight and one bias
variable per constructed layer: `2 * (len(shape) - 1)` variables in total. -/
theorem create_graph_from_shape_vars (shape : List (Nat × ActArg))
    (input_dtype output_dtype : Dtype) (t : Tensor) (vars : List String)
    (h : create_graph_from_shape shape input_dtype output_dtype = Except.ok (t, vars)) :
    vars.length = 2 * (shape.length - 1) := by
  unfold create_graph_from_shape at h
  split at h
  · simp at h
  · split at h
    next msg heq => simp at h
    next out0 heq =>
      split at h
      next msg heq2 => simp at h
      next yOut vars2 heq2 =>
        simp at h
        have hv := apply_layers_vars_length _ _ _ _ _ heq2
        rw [← h.2]
        simpa using hv

/-- A successful, graph-building run of `create_mlp_graph` returns
`2 * (len(shape) - 1)` variables. -/
theorem create_mlp_graph_ok_vars (loss_func : ActArg) (shape : List (Nat × ActArg))
    (input_dtype output_dtype : Dtype) (t : Tensor) (vars : List String)
    (h : create_mlp_graph false loss_func shape input_dtype output_dtype =
          Except.ok (some (t, vars))) :
    vars.length = 2 * (shape.length - 1) := by
  unfold create_mlp_graph at h
  split at h
  · simp at h
  · split at h
    · simp at h
    · split at h
      next msg heq => simp at h
      next y_out vs heq =>
        split at h
        next msg heq2 => simp at h
        next l heq2 =>
          simp at h
          rw [← h.2]
          exact create_graph_from_shape_vars _ _ _ _ _ heq

/-- C6: a graph built by `create_mlp_graph` carries one update operator per
weight and bias variable (`2 * (len(shape) - 1)` of them), and running the
update operators performs exactly one plain gradient-descent assignment per
parameter: `param ← param − lr × gradient`, with the fixed scalar learning
rate and nothing else. -/
theorem create_mlp_graph_training_ops (loss_func : ActArg) (shape : List (Nat × ActArg))
    (input_dtype output_dtype : Dtype) (t : Tensor) (vars : List String)
    (h : create_mlp_graph false loss_func shape input_dtype output_dtype =
          Except.ok (some (t, vars)))
    (lr : ℚ) (params grads : List ℚ) (hp : params.length = vars.length) :
    vars.length = 2 * (shape.length - 1) ∧
    (run_training_ops lr vars params grads).length = params.length ∧
    ∀ j, j < params.length →
      (run_training_ops lr vars params grads).getD j 0 =
        params.getD j 0 - lr * grads.getD j 0 := by
  refine ⟨create_mlp_graph_ok_vars _ _ _ _ _ _ h, foldl_set_length lr grads _ params, ?_⟩
  intro j hj
  rw [run_training_ops, foldl_set_getD lr grads vars.length params (by omega) j,
    if_pos (by omega)]

/-- C6 witness: a two-layer shape yields variables weights1, bias1; a
gradient step with learning rate 1/2 maps params (3, 5) with gradients (4, 6)
to (1, 2). -/
theorem create_mlp_graph_training_ops_witness :
    (create_mlp_graph false (ActArg.str "mean_square")
        [(2, ActArg.str "ignored"), (3, ActArg.str "linear")]
        Dtype.complex64 Dtype.complex64 =
      Except.ok (some (Tensor.ident (Tensor.app "linear" (Tensor.dense 1 Tensor.X)),
        ["weights1", "bias1"]))) ∧
    (([3, 5] : List ℚ).length = (["weights1", "bias1"] : List String).length) ∧
    ((["weights1", "bias1"] : List String).length =
        2 * (([(2, ActArg.str "ignored"), (3, ActArg.str "linear")] :
          List (Nat × ActArg)).length - 1) ∧
      (run_training_ops (1/2) ["weights1", "bias1"] [3, 5] [4, 6]).length =
        ([3, 5] : List ℚ).length ∧
      ∀ j, j < ([3, 5] : List ℚ).length →
        (run_training_ops (1/2) ["weights1", "bias1"] [3, 5] [4, 6]).getD j 0 =
          ([3, 5] : List ℚ).getD j 0 - (1/2) * ([4, 6] : List ℚ).getD j 0) :=
  ⟨rfl, rfl,
   create_mlp_graph_training_ops (ActArg.str "mean_square")
     [(2, ActArg.str "ignored"), (3, ActArg.str "linear")]
     Dtype.complex64 Dtype.complex64
     (Tensor.ident (Tensor.app "linear" (Tensor.dense 1 Tensor.X)))
     ["weights1", "bias1"] rfl (1/2) [3, 5] [4, 6] rfl⟩

/-- Modelled from the spec: `randomize` lives in `cvnn/utils.py`, which is not
among the given sources; per the spec it shuffles data and labels with one
shared permutation, preserving the feature/label correspondence.  The
permutation is passed explicitly as the list of source indices. -/
def randomize (perm : List Nat) (x : List α) (y : List β) : List α × List β :=
  (perm.filterMap (fun i => x[i]?), perm.filterMap (fun i => y[i]?))

/-- Python `int()` on a rational number: truncation toward zero.  The
`int(m*ratio)` of line 46 is modelled over exact rationals rather than IEEE
floating point. -/
def py_int (q : ℚ) : Int :=
  if 0 ≤ q then ⌊q⌋ else -⌊-q⌋

/-- Embedding of `separate_into_train_and_test` (src/data_processing.py,
lines 31-50): a ratio outside [0, 1] exits fatally; otherwise the (optionally
shuffled) data is split at index `int(m * ratio)`, the first part becoming
the training set and the remainder the test set, for data and labels alike. -/
def separate_into_train_and_test (x : List α) (y : List β) (r : ℚ)
    (pre_rand : Bool) (perm : List Nat) :
    Except String (List α × List β × List α × List β) :=
  if r > 1 ∨ r < 0 then
    Except.error "Error:separate_into_train_and_test: ratio should be between 0 and 1"
  else
    let xy := if pre_rand then randomize perm x y else (x, y)
    let k := (py_int ((xy.1.length : ℚ) * r)).toNat
    Except.ok (xy.1.take k, xy.2.take k, xy.1.drop k, xy.2.drop k)

/-- Selecting in-bounds indices keeps as many elements as indices. -/
theorem filterMap_getElem?_length (x : List α) :
    ∀ (perm : List Nat), (∀ i ∈ perm, i < x.length) →
      (perm.filterMap (fun i => x[i]?)).length = perm.length := by
  intro perm
  induction perm with
  | nil => intro _; rfl
  | cons i rest ih =>
      intro hp
      have hi : i < x.length := hp i (List.mem_cons_self i rest)
      rw [List.filterMap_cons, List.getElem?_eq_getElem hi]
      simp [ih (fun j hj => hp j (List.mem_cons_of_mem _ hj))]

/-- Selecting every index of a list in order returns the list itself. -/
theorem filterMap_getElem?_range (x : List α) :
    (List.range x.length).filterMap (fun i => x[i]?) = x := by
  induction x with
  | nil => rfl
  | cons a t ih =>
      rw [List.length_cons, List.range_succ_eq_map, List.filterMap_cons]
      simp only [List.getElem?_cons_zero, List.filterMap_map]
      have hcomp : ((fun i => (a :: t)[i]?) ∘ Nat.succ) = (fun i => t[i]?) := by
        funext i
        simp
      rw [hcomp, ih]

/-- Selecting the indices of a permutation of `range` permutes the list. -/
theorem filterMap_getElem?_perm (x : List α) (perm : List Nat)
    (hperm : perm.Perm (List.range x.length)) :
    (perm.filterMap (fun i => x[i]?)).Perm x := by
  have h := List.Perm.filterMap (fun i => x[i]?) hperm
  rwa [filterMap_getElem?_range] at h

/-- Zipping two equally shuffled lists equals shuffling the zipped list: the
shared permutation preserves the feature/label pairing. -/
theorem filterMap_getElem?_zip (x : List α) (y : List β) (hy : y.length = x.length) :
    ∀ (perm : List Nat), (∀ i ∈ perm, i < x.length) →
      (perm.filterMap (fun i => x[i]?)).zip (perm.filterMap (fun i => y[i]?)) =
        perm.filterMap (fun i => (x.zip y)[i]?) := by
  intro perm
  induction perm with
  | nil => intro _; rfl
  | cons i rest ih =>
      intro hp
      have hi : i < x.length := hp i (List.mem_cons_self i rest)
      have hiy : i < y.length := by omega
      have hiz : i < (x.zip y).length := by
        rw [List.length_zip]
        omega
      rw [List.filterMap_cons, List.filterMap_cons, List.filterMap_cons,
        List.getElem?_eq_getElem hi, List.getElem?_eq_getElem hiy,
        List.getElem?_eq_getElem hiz]
      simp only [List.zip_cons_cons]
      rw [ih (fun j hj => hp j (List.mem_cons_of_mem _ hj))]
      congr 1
      simp [List.getElem_zip]

/-- C4: on `m` paired examples with a shuffle permutation, a ratio in [0, 1]
yields exactly `⌊m * r⌋` training examples and `m - ⌊m * r⌋` test examples
with the feature/label pairing preserved (train and test pairs together are a
permutation of the original pairs); a ratio outside [0, 1] exits fatally. -/
theorem separate_into_train_and_test_spec (x : List α) (y : List β) (r : ℚ)
    (perm : List Nat) (hy : y.length = x.length)
    (hperm : perm.Perm (List.range x.length)) :
    ((0 ≤ r ∧ r ≤ 1) →
      ∃ x_train y_train x_test y_test,
        separate_into_train_and_test x y r true perm =
          Except.ok (x_train, y_train, x_test, y_test) ∧
        x_train.length = (⌊(x.length : ℚ) * r⌋).toNat ∧
        y_train.length = (⌊(x.length : ℚ) * r⌋).toNat ∧
        x_test.length = x.length - (⌊(x.length : ℚ) * r⌋).toNat ∧
        y_test.length = x.length - (⌊(x.length : ℚ) * r⌋).toNat ∧
        ((x_train ++ x_test).zip (y_train ++ y_test)).Perm (x.zip y)) ∧
    ((1 < r ∨ r < 0) →
      ∃ msg, separate_into_train_and_test x y r true perm = Except.error msg) := by
  constructor
  · rintro ⟨h0, h1⟩
    have hcond : ¬ (r > 1 ∨ r < 0) := by
      rintro (hc | hc) <;> linarith
    have hmem : ∀ i ∈ perm, i < x.length := by
      intro i hi
      have h2 := hperm.mem_iff.mp hi
      simpa using h2
    have hmemy : ∀ i ∈ perm, i < y.length := by
      intro i hi
      rw [hy]
      exact hmem i hi
    have hplen : perm.length = x.length := by
      rw [hperm.length_eq, List.length_range]
    have hxs_len : (perm.filterMap (fun i => x[i]?)).length = x.length := by
      rw [filterMap_getElem?_length x perm hmem, hplen]
    have hys_len : (perm.filterMap (fun i => y[i]?)).length = x.length := by
      rw [filterMap_getElem?_length y perm hmemy, hplen]
    have hq0 : 0 ≤ ((perm.filterMap (fun i => x[i]?)).length : ℚ) * r :=
      mul_nonneg (by positivity) h0
    have hpy : py_int (((perm.filterMap (fun i => x[i]?)).length : ℚ) * r) =
        ⌊((perm.filterMap (fun i => x[i]?)).length : ℚ) * r⌋ := by
      rw [py_int, if_pos hq0]
    have hk : (py_int (((perm.filterMap (fun i => x[i]?)).length : ℚ) * r)).toNat =
        (⌊(x.length : ℚ) * r⌋).toNat := by
      rw [hpy, hxs_len]
    have hfle : ⌊(x.length : ℚ) * r⌋ ≤ (x.length : Int) := by
      have h2 : (x.length : ℚ) * r ≤ (x.length : ℚ) :=
        mul_le_of_le_one_right (by positivity) h1
      have h3 := Int.floor_le_floor h2
      rwa [Int.floor_natCast] at h3
    have hkle : (⌊(x.length : ℚ) * r⌋).toNat ≤ x.length := by omega
    have heq : separate_into_train_and_test x y r true perm =
        Except.ok
          ((perm.filterMap (fun i => x[i]?)).take
              ((py_int (((perm.filterMap (fun i => x[i]?)).length : ℚ) * r)).toNat),
           (perm.filterMap (fun i => y[i]?)).take
              ((py_int (((perm.filterMap (fun i => x[i]?)).length : ℚ) * r)).toNat),
           (perm.filterMap (fun i => x[i]?)).drop
              ((py_int (((perm.filterMap (fun i => x[i]?)).length : ℚ) * r)).toNat),
           (perm.filterMap (fun i => y[i]?)).drop
              ((py_int (((perm.filterMap (fun i => x[i]?)).length : ℚ) * r)).toNat)) := by
      unfold separate_into_train_and_test
      rw [if_neg hcond]
      rfl
    refine ⟨_, _, _, _, heq, ?_, ?_, ?_, ?_, ?_⟩
    · rw [List.length_take, hk, hxs_len]
      omega
    · rw [List.length_take, hk, hys_len]
      omega
    · rw [List.length_drop, hk, hxs_len]
    · rw [List.length_drop, hk, hys_len]
    · rw [List.take_append_drop, List.take_append_drop]
      rw [filterMap_getElem?_zip x y hy perm hmem]
      have hzlen : (x.zip y).length = x.length := by
        rw [List.length_zip]
        omega
      apply filterMap_getElem?_perm (x.zip y) perm
      rwa [hzlen]
  · intro hc
    exact ⟨"Error:separate_into_train_and_test: ratio should be between 0 and 1", by
      unfold separate_into_train_and_test
      rw [if_pos hc]⟩

/-- C4 witness: 5 paired examples, ratio 4/5, reversal permutation — 4
training and 1 test example. -/
theorem separate_into_train_and_test_spec_witness :
    (([1, 2, 3, 4, 5] : List Nat).length = ([10, 20, 30, 40, 50] : List Nat).length) ∧
    (([4, 3, 2, 1, 0] : List Nat).Perm (List.range ([10, 20, 30, 40, 50] : List Nat).length)) ∧
    (((0 ≤ (4 / 5 : ℚ) ∧ (4 / 5 : ℚ) ≤ 1) →
      ∃ x_train y_train x_test y_test,
        separate_into_train_and_test [10, 20, 30, 40, 50] [1, 2, 3, 4, 5] (4 / 5 : ℚ)
            true [4, 3, 2, 1, 0] =
          Except.ok (x_train, y_train, x_test, y_test) ∧
        x_train.length = (⌊(([10, 20, 30, 40, 50] : List Nat).length : ℚ) * (4 / 5)⌋).toNat ∧
        y_train.length = (⌊(([10, 20, 30, 40, 50] : List Nat).length : ℚ) * (4 / 5)⌋).toNat ∧
        x_test.length = ([10, 20, 30, 40, 50] : List Nat).length -
          (⌊(([10, 20, 30, 40, 50] : List Nat).length : ℚ) * (4 / 5)⌋).toNat ∧
        y_test.length = ([10, 20, 30, 40, 50] : List Nat).length -
          (⌊(([10, 20, 30, 40, 50] : List Nat).length : ℚ) * (4 / 5)⌋).toNat ∧
        ((x_train ++ x_test).zip (y_train ++ y_test)).Perm
          (([10, 20, 30, 40, 50] : List Nat).zip [1, 2, 3, 4, 5])) ∧
     ((1 < (4 / 5 : ℚ) ∨ (4 / 5 : ℚ) < 0) →
      ∃ msg, separate_into_train_and_test [10, 20, 30, 40, 50] [1, 2, 3, 4, 5] (4 / 5 : ℚ)
          true [4, 3, 2, 1, 0] = Except.error msg)) :=
  ⟨by decide, by decide,
   separate_into_train_and_test_spec [10, 20, 30, 40, 50] [1, 2, 3, 4, 5] (4 / 5 : ℚ)
     [4, 3, 2, 1, 0] (by decide) (by decide)⟩

end CvnnModel
